import Mathlib

/-!
Verification development for the Spotify listening-insight dashboard
(`src/app.py`). The enrichment and aggregation pipeline is shallowly
embedded: external calls (Spotify API, langdetect, Last.fm biography
fetch) are passed in as oracles of type `String → Except String _`,
where `Except.error e` models a raised exception with message `e`.
Streamlit side effects (`st.error`, `st.warning`) are modelled as a
list of reported message strings.
-/

namespace MusicProfile

/-- Python `str.lower()` restricted to per-character lowering, as used by
`country.lower() in bio.lower()` in `get_artist_country_lastfm`. -/
def pyLower (s : String) : List Char := s.toList.map Char.toLower

/-- Test that `n` is an initial segment of `h`. -/
def startsWithChars : List Char → List Char → Bool
  | [], _ => true
  | _ :: _, [] => false
  | a :: as, b :: bs => (a = b) && startsWithChars as bs

/-- Test that `n` occurs contiguously inside the second list; this is
the Python substring test `n in h`. -/
def containsChars (n : List Char) : List Char → Bool
  | [] => startsWithChars n []
  | c :: t => startsWithChars n (c :: t) || containsChars n t

/-- The test `country.lower() in bio.lower()` from `app.py` line 103:
Python substring containment on the lowercased strings. -/
def countryMatch (country bio : String) : Bool :=
  containsChars (pyLower country) (pyLower bio)

/-- The `for country in [...]` loop of `get_artist_country_lastfm`
(lines 102-106): return the first country of the list, in list order,
matching the biography; `"Unknown"` when none does. -/
def scanCountries (bio : String) : List String → String
  | [] => "Unknown"
  | c :: cs => if countryMatch c bio then c else scanCountries bio cs

/-- The function `get_artist_country_lastfm` (app.py lines 91-109). The whole body is
wrapped in `try/except`; the network fetch, JSON decoding and the
`.get` chain producing the biography text are folded into the oracle
`fetchBio` (a missing `artist/bio/content` field is `Except.ok ""`,
an exception anywhere is `Except.error _`). The country list
(`pycountry.countries` name list) is passed as `countries`. -/
def get_artist_country_lastfm (countries : List String)
    (fetchBio : String → Except String String) (artistName : String) : String :=
  match fetchBio artistName with
  | .error _ => "Unknown"
  | .ok bio => scanCountries bio countries

/-- Written from the spec's words (§4.2): "return the first match
encountered in list-iteration order", i.e. `List.find?` over the
country list, defaulting to `"Unknown"`. Used to compare the code's
scanning loop against the specified behaviour. -/
def firstMatchSpec (countries : List String) (bio : String) : String :=
  (countries.find? (fun c => countryMatch c bio)).getD "Unknown"

theorem scanCountries_eq_firstMatchSpec (bio : String) (countries : List String) :
    scanCountries bio countries = firstMatchSpec countries bio := by
  induction countries with
  | nil => rfl
  | cons c cs ih =>
    by_cases h : countryMatch c bio
    · simp [scanCountries, firstMatchSpec, List.find?, h]
    · simp only [Bool.not_eq_true] at h
      simp [scanCountries, firstMatchSpec, List.find?, h, ih]

theorem scanCountries_mem_or_unknown (bio : String) (countries : List String) :
    scanCountries bio countries = "Unknown" ∨ scanCountries bio countries ∈ countries := by
  induction countries with
  | nil => left; rfl
  | cons c cs ih =>
    by_cases h : countryMatch c bio
    · right; simp [scanCountries, h]
    · simp only [Bool.not_eq_true] at h
      rcases ih with h2 | h2
      · left; simpa [scanCountries, h] using h2
      · right; simp [scanCountries, h, h2]

/-- C2: when the biography fetch succeeds with text `bio`, the country
resolver returns exactly the first country of the canonical list, in
list-iteration order, whose (case-insensitive) name occurs in `bio`,
and `"Unknown"` when none occurs — i.e. it agrees with the spec-side
`List.find?` formulation. -/
theorem country_resolver_first_in_list_order
    (countries : List String) (fetchBio : String → Except String String)
    (artistName bio : String) (h : fetchBio artistName = Except.ok bio) :
    get_artist_country_lastfm countries fetchBio artistName
      = firstMatchSpec countries bio := by
  unfold get_artist_country_lastfm
  rw [h]
  exact scanCountries_eq_firstMatchSpec bio countries

/-- Witness for C2 at a concrete input. The biography mentions Norway
earlier in the text, yet Sweden wins because it comes first in the
country list: the tie-break is list order, not text position. -/
theorem country_resolver_first_in_list_order_witness :
    get_artist_country_lastfm ["Sweden", "Norway"]
        (fun _ => Except.ok "Born in Norway, famous in Sweden") "ABBA"
      = firstMatchSpec ["Sweden", "Norway"] "Born in Norway, famous in Sweden"
    ∧ firstMatchSpec ["Sweden", "Norway"] "Born in Norway, famous in Sweden" = "Sweden" :=
  ⟨country_resolver_first_in_list_order ["Sweden", "Norway"]
      (fun _ => Except.ok "Born in Norway, famous in Sweden") "ABBA"
      "Born in Norway, famous in Sweden" rfl,
   by decide⟩

/-- C7: whenever the biography fetch fails (modelled as the oracle
returning `Except.error`), the country resolver returns exactly
`"Unknown"`; the failure is swallowed by the `try/except`, never
propagated. -/
theorem country_resolver_unknown_on_fetch_failure
    (countries : List String) (fetchBio : String → Except String String)
    (artistName e : String) (h : fetchBio artistName = Except.error e) :
    get_artist_country_lastfm countries fetchBio artistName = "Unknown" := by
  unfold get_artist_country_lastfm
  rw [h]

/-- Witness for C7 at a concrete failing oracle. -/
theorem country_resolver_unknown_on_fetch_failure_witness :
    get_artist_country_lastfm ["Sweden", "Norway"]
        (fun _ => Except.error "network down") "ABBA" = "Unknown" :=
  country_resolver_unknown_on_fetch_failure ["Sweden", "Norway"]
    (fun _ => Except.error "network down") "ABBA" "network down" rfl

/-- C9: the resolver's output is always either the sentinel `"Unknown"`
or an element of the canonical country list in its canonical
capitalization — never text copied from the biography, even though
matching is case-insensitive. -/
theorem country_resolver_output_canonical
    (countries : List String) (fetchBio : String → Except String String)
    (artistName : String) :
    get_artist_country_lastfm countries fetchBio artistName = "Unknown"
      ∨ get_artist_country_lastfm countries fetchBio artistName ∈ countries := by
  unfold get_artist_country_lastfm
  cases fetchBio artistName with
  | error e => left; rfl
  | ok bio => exact scanCountries_mem_or_unknown bio countries

/-- A raw track record as returned by the Spotify API (the fields of
`item` that `fetch_tracks` reads; `artistName`/`artistId` are
`item["artists"][0]`, `releaseDate` is `item["album"]["release_date"]`). -/
structure RawTrack where
  name : String
  artistName : String
  artistId : String
  albumName : String
  durationMs : Nat
  popularity : Nat
  explicit : Bool
  releaseDate : String
deriving Repr, DecidableEq

/-- An enriched track row, one dict appended to `rows` per item
(app.py lines 160-171). -/
structure Row where
  trackName : String
  artist : String
  album : String
  genre : String
  language : String
  durationMin : ℚ
  popularity : Nat
  explicit : String
  releaseYear : String
  country : String
deriving Repr, DecidableEq

/-- Round-half-to-even on rationals, modelling Python 3 `round` ties
(`round(x, 2)` at line 166; the binary-float representation is
modelled exactly by the rational value). -/
def roundHalfEven (q : ℚ) : ℤ :=
  let f : ℤ := Int.floor q
  let r : ℚ := q - f
  if r < 1 / 2 then f
  else if 1 / 2 < r then f + 1
  else if f % 2 = 0 then f else f + 1

/-- Python `round(q, 2)`. -/
def round2 (q : ℚ) : ℚ := (roundHalfEven (q * 100) : ℚ) / 100

/-- The language-detection input `f"{item['name']} {item['artists'][0]['name']}"`
(line 151). -/
def langInput (item : RawTrack) : String := item.name ++ " " ++ item.artistName

/-- The per-item enrichment body of the `for item in top_tracks["items"]`
loop (lines 149-171), after the artist-metadata lookup has already
succeeded with genre list `genres`. `detect` is the langdetect oracle
(its `try/except` fallback to `"unknown"` is lines 150-154);
country resolution goes through `get_artist_country_lastfm`, which
never fails. -/
def enrichTrack (countries : List String)
    (detect fetchBio : String → Except String String)
    (genres : List String) (item : RawTrack) : Row :=
  { trackName := item.name
    artist := item.artistName
    album := item.albumName
    genre := match genres with | [] => "Unknown" | g :: _ => g
    language := match detect (langInput item) with
                | .ok l => l
                | .error _ => "unknown"
    durationMin := round2 ((item.durationMs : ℚ) / 60000)
    popularity := item.popularity
    explicit := if item.explicit then "Explicit" else "Clean"
    releaseYear := item.releaseDate.take 4
    country := get_artist_country_lastfm countries fetchBio item.artistName }

/-- The enrichment loop of `fetch_tracks` (lines 143-174). The
artist-metadata call `sp.artist(artist_id)` is the oracle
`artistGenres` (returning the `genres` field); it has no local
handler, so its failure propagates out of the loop (to the outer
`try/except` of `fetch_tracks`). -/
def enrichLoop (countries : List String)
    (detect fetchBio : String → Except String String)
    (artistGenres : String → Except String (List String)) :
    List RawTrack → Except String (List Row)
  | [] => Except.ok []
  | item :: rest =>
    match artistGenres item.artistId with
    | .error e => Except.error e
    | .ok genres =>
      match enrichLoop countries detect fetchBio artistGenres rest with
      | .error e => Except.error e
      | .ok rows => Except.ok (enrichTrack countries detect fetchBio genres item :: rows)

/-- The enrichment of one raw track as `fetch_tracks` performs it:
`none` when the artist-metadata lookup raises (which aborts the
batch), otherwise the enriched row. -/
def enrichRowOf (countries : List String)
    (detect fetchBio : String → Except String String)
    (artistGenres : String → Except String (List String))
    (item : RawTrack) : Option Row :=
  match artistGenres item.artistId with
  | .error _ => none
  | .ok genres => some (enrichTrack countries detect fetchBio genres item)

/-- The function `fetch_tracks` (lines 137-179). Here `api` is
`sp.current_user_top_tracks(limit=20, time_range=...)`, returning the
`items` list or an exception. The second component of the result is
the list of messages reported via `st.error`; the function always
returns a value — it never propagates an exception, matching the
outer `try/except`. Zero items short-circuits to an empty DataFrame
with no error (lines 140-141). -/
def fetch_tracks (countries : List String)
    (detect fetchBio : String → Except String String)
    (artistGenres : String → Except String (List String))
    (api : String → Except String (List RawTrack))
    (timeRange : String) : List Row × List String :=
  match api timeRange with
  | .error e => ([], ["Failed to fetch data: " ++ e])
  | .ok items =>
    if items.isEmpty then ([], [])
    else
      match enrichLoop countries detect fetchBio artistGenres items with
      | .error e => ([], ["Failed to fetch data: " ++ e])
      | .ok rows => (rows, [])

theorem enrichLoop_ok_of_genres_ok (countries : List String)
    (detect fetchBio : String → Except String String)
    (artistGenres : String → Except String (List String))
    (g : RawTrack → List String) (items : List RawTrack)
    (h : ∀ it ∈ items, artistGenres it.artistId = Except.ok (g it)) :
    enrichLoop countries detect fetchBio artistGenres items
      = Except.ok (items.map (fun it => enrichTrack countries detect fetchBio (g it) it)) := by
  induction items with
  | nil => rfl
  | cons item rest ih =>
    have hhead : artistGenres item.artistId = Except.ok (g item) :=
      h item (List.mem_cons_self item rest)
    have htail := ih (fun it hit => h it (List.mem_cons_of_mem item hit))
    simp [enrichLoop, hhead, htail]

/-- C6: whenever the enrichment loop processes a batch to completion, it
produces exactly one row per raw track (`rows.length = items.length`)
and in the same order: position `i` of the output is the enrichment of
position `i` of the API response, stated without index arithmetic as
`rows.map some = items.map enrichRowOf`. -/
theorem enrichment_one_row_per_track_in_order (countries : List String)
    (detect fetchBio : String → Except String String)
    (artistGenres : String → Except String (List String))
    (items : List RawTrack) (rows : List Row)
    (h : enrichLoop countries detect fetchBio artistGenres items = Except.ok rows) :
    rows.length = items.length
      ∧ rows.map Option.some
          = items.map (enrichRowOf countries detect fetchBio artistGenres) := by
  induction items generalizing rows with
  | nil =>
    simp only [enrichLoop] at h
    cases h
    exact ⟨rfl, rfl⟩
  | cons item rest ih =>
    simp only [enrichLoop] at h
    cases hg : artistGenres item.artistId with
    | error e => rw [hg] at h; cases h
    | ok genres =>
      rw [hg] at h
      cases hr : enrichLoop countries detect fetchBio artistGenres rest with
      | error e => rw [hr] at h; cases h
      | ok rs =>
        rw [hr] at h
        cases h
        obtain ⟨hlen, hord⟩ := ih rs hr
        refine ⟨by simp [hlen], ?_⟩
        simp only [List.map_cons, enrichRowOf, hg, hord]

/-- Demo raw tracks and oracles used by the concrete witnesses. -/
def wTrack1 : RawTrack :=
  { name := "Song A", artistName := "Alice", artistId := "a1",
    albumName := "First", durationMs := 180000, popularity := 50,
    explicit := false, releaseDate := "2019-05-01" }

def wTrack2 : RawTrack :=
  { name := "Song B", artistName := "Bob", artistId := "a2",
    albumName := "Second", durationMs := 240000, popularity := 70,
    explicit := true, releaseDate := "2021-11-20" }

def wDetect : String → Except String String := fun _ => Except.ok "en"

def wBio : String → Except String String := fun _ => Except.ok "Born in Sweden"

def wGenres : String → Except String (List String) := fun _ => Except.ok ["pop"]

def wRows : List Row :=
  [enrichTrack [] wDetect wBio ["pop"] wTrack1,
   enrichTrack [] wDetect wBio ["pop"] wTrack2]

/-- Witness for C6 on a concrete two-track batch. -/
theorem enrichment_one_row_per_track_in_order_witness :
    wRows.length = [wTrack1, wTrack2].length
      ∧ wRows.map Option.some
          = [wTrack1, wTrack2].map (enrichRowOf [] wDetect wBio wGenres) :=
  enrichment_one_row_per_track_in_order [] wDetect wBio wGenres
    [wTrack1, wTrack2] wRows rfl

/-- C3: for any window identifier, a top-tracks API call that returns
zero items yields an empty Dataset and no reported error, and an API
call that raises yields an empty Dataset with the failure's message
reported via `st.error`; in both cases `fetch_tracks` returns
normally (the embedding returns a plain pair, never an exception). -/
theorem fetch_zero_items_and_api_failure (countries : List String)
    (detect fetchBio : String → Except String String)
    (artistGenres : String → Except String (List String))
    (api : String → Except String (List RawTrack)) (w e : String) :
    (api w = Except.error e →
      fetch_tracks countries detect fetchBio artistGenres api w
        = ([], ["Failed to fetch data: " ++ e]))
    ∧ (api w = Except.ok [] →
      fetch_tracks countries detect fetchBio artistGenres api w = ([], [])) := by
  constructor
  · intro h
    simp [fetch_tracks, h]
  · intro h
    simp [fetch_tracks, h]

/-- Witness for C3: a failing API call and an empty API response, both
at the window `"short_term"`. -/
theorem fetch_zero_items_and_api_failure_witness :
    fetch_tracks [] wDetect wBio wGenres (fun _ => Except.error "HTTP 429") "short_term"
        = ([], ["Failed to fetch data: HTTP 429"])
    ∧ fetch_tracks [] wDetect wBio wGenres (fun _ => Except.ok []) "short_term"
        = ([], []) :=
  ⟨(fetch_zero_items_and_api_failure [] wDetect wBio wGenres
      (fun _ => Except.error "HTTP 429") "short_term" "HTTP 429").1 rfl,
   (fetch_zero_items_and_api_failure [] wDetect wBio wGenres
      (fun _ => Except.ok []) "short_term" "HTTP 429").2 rfl⟩

/-- Oracles for the C1 counterexample: the artist-metadata (genre)
lookup raises for the first track's artist only; every other
sub-step of every track succeeds. -/
def cxGenres : String → Except String (List String) :=
  fun aid => if aid = "a1" then Except.error "boom" else Except.ok ["pop"]

def cxApi : String → Except String (List RawTrack) :=
  fun _ => Except.ok [wTrack1, wTrack2]

/-- Counterexample to C1 as stated: with a two-track batch in which the
single failing enrichment sub-step is the genre lookup of track 1
(every sub-step of track 2 succeeds), `fetch_tracks` enriches zero
rows — the failure aborts the row and the whole batch, instead of
degrading track 1's Genre to `"Unknown"`. -/
theorem single_genre_failure_aborts_batch :
    cxGenres "a1" = Except.error "boom"
    ∧ cxGenres "a2" = Except.ok ["pop"]
    ∧ [wTrack1, wTrack2].length = 2
    ∧ fetch_tracks [] wDetect wBio cxGenres cxApi "short_term"
        = ([], ["Failed to fetch data: boom"]) := by
  refine ⟨rfl, rfl, rfl, ?_⟩
  rfl

/-- C1 (amended): language-detection and country-resolution failures are
locally recovered — the row is still produced with only that field at
its sentinel (`"unknown"` / `"Unknown"`) — and a successful genre
lookup with an empty list degrades Genre to `"Unknown"`; but an
exception in the artist-metadata (genre) lookup has no per-row
handler: it aborts enrichment of the entire batch, and the fetch-level
handler reports it and returns an empty Dataset. Part 1: when every
genre lookup succeeds the whole batch is enriched row by row; part 2:
a detect failure only forces `language = "unknown"`; part 3: a
biography-fetch failure only forces `country = "Unknown"`; part 4: an
enrichment-loop exception becomes a reported fetch-level error with an
empty Dataset. -/
theorem enrichment_failure_semantics_amended :
    (∀ (countries : List String) (detect fetchBio : String → Except String String)
        (artistGenres : String → Except String (List String))
        (g : RawTrack → List String) (items : List RawTrack),
      (∀ it ∈ items, artistGenres it.artistId = Except.ok (g it)) →
      enrichLoop countries detect fetchBio artistGenres items
        = Except.ok (items.map (fun it => enrichTrack countries detect fetchBio (g it) it)))
    ∧ (∀ (countries : List String) (detect fetchBio : String → Except String String)
        (genres : List String) (item : RawTrack) (e : String),
      detect (langInput item) = Except.error e →
      (enrichTrack countries detect fetchBio genres item).language = "unknown")
    ∧ (∀ (countries : List String) (detect fetchBio : String → Except String String)
        (genres : List String) (item : RawTrack) (e : String),
      fetchBio item.artistName = Except.error e →
      (enrichTrack countries detect fetchBio genres item).country = "Unknown")
    ∧ (∀ (countries : List String) (detect fetchBio : String → Except String String)
        (artistGenres : String → Except String (List String))
        (api : String → Except String (List RawTrack))
        (w e : String) (items : List RawTrack),
      api w = Except.ok items → items.isEmpty = false →
      enrichLoop countries detect fetchBio artistGenres items = Except.error e →
      fetch_tracks countries detect fetchBio artistGenres api w
        = ([], ["Failed to fetch data: " ++ e])) := by
  refine ⟨enrichLoop_ok_of_genres_ok, ?_, ?_, ?_⟩
  · intro countries detect fetchBio genres item e h
    simp [enrichTrack, h]
  · intro countries detect fetchBio genres item e h
    simp [enrichTrack, get_artist_country_lastfm, h]
  · intro countries detect fetchBio artistGenres api w e items hapi hne hloop
    simp [fetch_tracks, hapi, hne, hloop]

/-- Oracles that fail a single local sub-step, for the C1 witness. -/
def wDetectFail : String → Except String String := fun _ => Except.error "no features"

def wBioFail : String → Except String String := fun _ => Except.error "timeout"

/-- Witness for C1 (amended): each part applied at a concrete input. -/
theorem enrichment_failure_semantics_amended_witness :
    enrichLoop [] wDetect wBio wGenres [wTrack1, wTrack2]
        = Except.ok ([wTrack1, wTrack2].map
            (fun it => enrichTrack [] wDetect wBio ["pop"] it))
    ∧ (enrichTrack [] wDetectFail wBio ["pop"] wTrack1).language = "unknown"
    ∧ (enrichTrack [] wDetect wBioFail ["pop"] wTrack1).country = "Unknown"
    ∧ fetch_tracks [] wDetect wBio cxGenres cxApi "long_term"
        = ([], ["Failed to fetch data: boom"]) :=
  ⟨enrichment_failure_semantics_amended.1 [] wDetect wBio wGenres
      (fun _ => ["pop"]) [wTrack1, wTrack2] (fun _ _ => rfl),
   enrichment_failure_semantics_amended.2.1 [] wDetectFail wBio ["pop"] wTrack1
      "no features" rfl,
   enrichment_failure_semantics_amended.2.2.1 [] wDetect wBioFail ["pop"] wTrack1
      "timeout" rfl,
   enrichment_failure_semantics_amended.2.2.2 [] wDetect wBio cxGenres cxApi
      "long_term" "boom" [wTrack1, wTrack2] rfl rfl rfl⟩

/-- Pandas `len(df[col].unique())`: the number of distinct values of a column. -/
def nDistinct (xs : List String) : ℕ := xs.dedup.length

/-- Pandas `df["Popularity"].mean()`: the arithmetic mean of the
Popularity column as an exact rational. -/
def meanPop (rows : List Row) : ℚ :=
  (rows.map (fun r => (r.popularity : ℚ))).sum / rows.length

/-- The diversity score (app.py lines 416-421):
`2*len(genres.unique()) + 2*len(languages.unique()) +
len(years.unique()) + (100 - popularity.mean())`, with no clamping. -/
def diversity (rows : List Row) : ℚ :=
  2 * nDistinct (rows.map Row.genre)
    + 2 * nDistinct (rows.map Row.language)
    + nDistinct (rows.map Row.releaseYear)
    + (100 - meanPop rows)

/-- Python `int(q)`: truncation toward zero. -/
def intTrunc (q : ℚ) : ℤ := if 0 ≤ q then Int.floor q else -(Int.floor (-q))

/-- The number rendered by `st.metric(..., f"{int(diversity)} / 100")`
(app.py line 423). -/
def displayedDiversity (rows : List Row) : ℤ := intTrunc (diversity rows)

/-- Row constructor for concrete metric datasets (fields not involved in
the metrics are fixed to innocuous values). -/
def mkRow (g l y : String) (p : ℕ) : Row :=
  { trackName := "t", artist := "a", album := "b", genre := g, language := l,
    durationMin := 3, popularity := p, explicit := "Clean",
    releaseYear := y, country := "Unknown" }

/-- Five rows with 5 distinct genres, 3 distinct languages, 4 distinct
release years and mean popularity 60 — the spec's worked example. -/
def exampleRows : List Row :=
  [mkRow "indie" "en" "2018" 60, mkRow "pop" "en" "2019" 60,
   mkRow "jazz" "ko" "2020" 60, mkRow "rock" "fr" "2021" 60,
   mkRow "soul" "en" "2021" 60]

/-- C4: the diversity score is exactly
`2*(distinct genres) + 2*(distinct languages) + (distinct years)
+ (100 - mean popularity)` — the distinct counts agreeing with the
set-cardinality reading — with no clamping of the result; on the
spec's example dataset (5 genres, 3 languages, 4 years, mean 60) it is
exactly 60. -/
theorem diversity_formula_exact :
    (∀ rows : List Row,
      diversity rows
        = 2 * ((rows.map Row.genre).toFinset.card : ℚ)
          + 2 * ((rows.map Row.language).toFinset.card : ℚ)
          + ((rows.map Row.releaseYear).toFinset.card : ℚ)
          + (100 - (rows.map (fun r => (r.popularity : ℚ))).sum / rows.length))
    ∧ diversity exampleRows = 60 := by
  constructor
  · intro rows
    simp [diversity, nDistinct, meanPop, List.card_toFinset]
  · have hg : nDistinct (exampleRows.map Row.genre) = 5 := by decide
    have hl : nDistinct (exampleRows.map Row.language) = 3 := by decide
    have hy : nDistinct (exampleRows.map Row.releaseYear) = 4 := by decide
    have hm : meanPop exampleRows = 60 := by
      simp [meanPop, exampleRows, mkRow]
      norm_num
    rw [diversity, hg, hl, hy, hm]
    norm_num

theorem sum_pop_le_hundred_mul (rows : List Row)
    (hpop : ∀ r ∈ rows, r.popularity ≤ 100) :
    (rows.map (fun r => (r.popularity : ℚ))).sum ≤ 100 * rows.length := by
  induction rows with
  | nil => simp
  | cons r rs ih =>
    have hr : (r.popularity : ℚ) ≤ 100 := by
      exact_mod_cast hpop r (List.mem_cons_self r rs)
    have hrs := ih (fun x hx => hpop x (List.mem_cons_of_mem r hx))
    simp only [List.map_cons, List.sum_cons, List.length_cons]
    push_cast
    linarith

/-- C10: the displayed diversity score is the `int()` truncation of the
computed score, which for the (nonnegative) score is its floor: the
fractional part is discarded, never rounded up. -/
theorem diversity_display_truncates (rows : List Row) (hne : rows ≠ [])
    (hpop : ∀ r ∈ rows, r.popularity ≤ 100) :
    displayedDiversity rows = Int.floor (diversity rows)
      ∧ (displayedDiversity rows : ℚ) ≤ diversity rows
      ∧ diversity rows < (displayedDiversity rows : ℚ) + 1 := by
  have hlen : (0 : ℚ) < rows.length := by
    have : 0 < rows.length := List.length_pos.mpr hne
    exact_mod_cast this
  have hmean : meanPop rows ≤ 100 := by
    rw [meanPop, div_le_iff₀ hlen]
    exact sum_pop_le_hundred_mul rows hpop
  have hg : (0 : ℚ) ≤ (nDistinct (rows.map Row.genre) : ℚ) := by positivity
  have hl : (0 : ℚ) ≤ (nDistinct (rows.map Row.language) : ℚ) := by positivity
  have hy : (0 : ℚ) ≤ (nDistinct (rows.map Row.releaseYear) : ℚ) := by positivity
  have h0 : 0 ≤ diversity rows := by
    rw [diversity]
    linarith
  have hfloor : displayedDiversity rows = Int.floor (diversity rows) := by
    rw [displayedDiversity, intTrunc, if_pos h0]
  refine ⟨hfloor, ?_, ?_⟩
  · rw [hfloor]; exact Int.floor_le (diversity rows)
  · rw [hfloor]
    have := Int.lt_floor_add_one (diversity rows)
    exact_mod_cast this

/-- Two rows whose computed score is 49.5: mean popularity 60.5, two
distinct genres, languages and years. -/
def demoHalfRows : List Row :=
  [mkRow "indie" "en" "2019" 60, mkRow "pop" "ko" "2021" 61]

theorem diversity_demoHalfRows_eq : diversity demoHalfRows = 99 / 2 := by
  have hg : nDistinct (demoHalfRows.map Row.genre) = 2 := by decide
  have hl : nDistinct (demoHalfRows.map Row.language) = 2 := by decide
  have hy : nDistinct (demoHalfRows.map Row.releaseYear) = 2 := by decide
  have hm : meanPop demoHalfRows = 121 / 2 := by
    simp [meanPop, demoHalfRows, mkRow]
    norm_num
  rw [diversity, hg, hl, hy, hm]
  norm_num

/-- Witness for C10: the computed score 49.5 displays as 49 (its floor),
while rounding would have given 50. -/
theorem diversity_display_truncates_witness :
    displayedDiversity demoHalfRows = Int.floor (diversity demoHalfRows)
      ∧ diversity demoHalfRows = 99 / 2
      ∧ displayedDiversity demoHalfRows = 49
      ∧ round (diversity demoHalfRows) = 50 := by
  have hfloor := (diversity_display_truncates demoHalfRows (by decide) (by decide)).1
  refine ⟨hfloor, diversity_demoHalfRows_eq, ?_, ?_⟩
  · rw [hfloor, diversity_demoHalfRows_eq, Int.floor_eq_iff]
    norm_num
  · rw [diversity_demoHalfRows_eq, round_eq, Int.floor_eq_iff]
    norm_num

/-- A point of the two-feature space (Duration (min), Popularity). -/
abbrev Pt := ℚ × ℚ

/-- Arithmetic mean of a list of rationals. -/
def qMean (xs : List ℚ) : ℚ := xs.sum / xs.length

/-- Population variance (the `ddof=0` variance used by
`StandardScaler`). -/
def popVariance (xs : List ℚ) : ℚ := qMean (xs.map (fun x => (x - qMean xs) ^ 2))

/-- Inverse-variance weight; a zero-variance (constant) column is left
unscaled, as `StandardScaler` does. -/
def invWeight (v : ℚ) : ℚ := if v = 0 then 1 else 1 / v

/-- Squared Euclidean distance in the standardized space, computed on
raw coordinates with per-column inverse-variance weights: since
standardization is the linear map `x ↦ (x − μ)/σ` per column,
squared distances between standardized points equal these weighted
squared distances between raw points, and cluster assignments agree. -/
def wdist (w a b : Pt) : ℚ := w.1 * (a.1 - b.1) ^ 2 + w.2 * (a.2 - b.2) ^ 2

/-- Index of the least element of a list (first index on ties). -/
def argmin : List ℚ → ℕ
  | [] => 0
  | [_] => 0
  | x :: y :: rest =>
    let j := argmin (y :: rest)
    if x ≤ (y :: rest).getD j 0 then 0 else j + 1

theorem argmin_lt_length (l : List ℚ) (h : l ≠ []) : argmin l < l.length := by
  induction l with
  | nil => exact absurd rfl h
  | cons x xs ih =>
    cases xs with
    | nil => simp [argmin]
    | cons y rest =>
      have hrec := ih (by simp)
      by_cases hx : x ≤ (y :: rest).getD (argmin (y :: rest)) 0
      · simp only [argmin, hx, if_true]
        simp
      · simp only [argmin, hx, if_false]
        simp only [List.length_cons] at hrec ⊢
        omega

/-- The cluster a point is assigned to: the index of the nearest
centroid. -/
def nearestCluster (w : Pt) (cs : List Pt) (p : Pt) : ℕ :=
  argmin (cs.map (fun c => wdist w p c))

/-- Mean of a cluster, coordinatewise. -/
def centroidOf (pts : List Pt) : Pt :=
  (qMean (pts.map Prod.fst), qMean (pts.map Prod.snd))

/-- One Lloyd update: each of the `k` centroids becomes the mean of the
points currently assigned to it (an empty cluster keeps its
centroid). -/
def updateCentroids (w : Pt) (k : ℕ) (cs : List Pt) (ps : List Pt) : List Pt :=
  (List.range k).map (fun i =>
    let cl := ps.filter (fun p => nearestCluster w cs p = i)
    if cl.isEmpty then cs.getD i (0, 0) else centroidOf cl)

def kmeansIterate (w : Pt) (k : ℕ) (ps : List Pt) : ℕ → List Pt → List Pt
  | 0, cs => cs
  | n + 1, cs => kmeansIterate w k ps n (updateCentroids w k cs ps)

/-- Modelled from the spec: `sklearn.cluster.KMeans` and
`sklearn.preprocessing.StandardScaler` are external libraries whose
code is not part of this repository. Per sklearn's documented
contract (and spec §4.6), fitting with `n_samples < n_clusters`
raises `ValueError: n_samples=… should be >= n_clusters=…`; otherwise
Lloyd's algorithm partitions the points into `k` clusters and labels
each sample with its cluster index. The `random_state=42`
initialization is modelled by the deterministic choice of the first
`k` points as initial centroids; standardization is modelled by the
equivalent inverse-variance-weighted metric `wdist`. -/
def kmeansFit (k : ℕ) (w : Pt) (ps : List Pt) : Except String (List ℕ) :=
  if ps.length < k then
    Except.error ("n_samples=" ++ toString ps.length
      ++ " should be >= n_clusters=" ++ toString k)
  else
    Except.ok (ps.map (nearestCluster w (kmeansIterate w k ps 10 (ps.take k))))

/-- The feature selection `df[["Duration (min)", "Popularity"]]`
(app.py line 481). -/
def featurePoints (rows : List Row) : List Pt :=
  rows.map (fun r => (r.durationMin, (r.popularity : ℚ)))

/-- The per-column weights realizing `StandardScaler().fit_transform`
(line 484) inside the distance computation. -/
def standardWeights (ps : List Pt) : Pt :=
  (invWeight (popVariance (ps.map Prod.fst)),
   invWeight (popVariance (ps.map Prod.snd)))

/-- The call `KMeans(n_clusters=3, random_state=42).fit(scaled)`
followed by `kmeans.labels_` (lines 487-488): the cluster label
attached to each row, or the boundary error for undersized data. -/
def clusterLabels (rows : List Row) : Except String (List ℕ) :=
  kmeansFit 3 (standardWeights (featurePoints rows)) (featurePoints rows)

theorem updateCentroids_length (w : Pt) (k : ℕ) (cs ps : List Pt) :
    (updateCentroids w k cs ps).length = k := by
  simp [updateCentroids]

theorem kmeansIterate_length (w : Pt) (k : ℕ) (ps : List Pt) :
    ∀ (n : ℕ) (cs : List Pt), cs.length = k → (kmeansIterate w k ps n cs).length = k := by
  intro n
  induction n with
  | zero => intro cs h; exact h
  | succ m ih =>
    intro cs _
    exact ih (updateCentroids w k cs ps) (updateCentroids_length w k cs ps)

theorem kmeansFit_ok (k : ℕ) (w : Pt) (ps : List Pt)
    (hk : k ≠ 0) (h : k ≤ ps.length) :
    ∃ ls : List ℕ, kmeansFit k w ps = Except.ok ls
      ∧ ls.length = ps.length ∧ ∀ l ∈ ls, l < k := by
  unfold kmeansFit
  rw [if_neg (not_lt.mpr h)]
  refine ⟨_, rfl, List.length_map _ _, ?_⟩
  intro l hl
  rw [List.mem_map] at hl
  obtain ⟨p, _, rfl⟩ := hl
  have htake : (ps.take k).length = k := by
    rw [List.length_take]
    exact min_eq_left h
  have hcs : (kmeansIterate w k ps 10 (ps.take k)).length = k :=
    kmeansIterate_length w k ps 10 (ps.take k) htake
  have hne : (kmeansIterate w k ps 10 (ps.take k)).map
      (fun c => wdist w p c) ≠ [] := by
    intro hempty
    have := congrArg List.length hempty
    rw [List.length_map, hcs] at this
    exact hk (by simpa using this)
  have := argmin_lt_length _ hne
  rw [List.length_map, hcs] at this
  exact this

/-- C5: clustering a Dataset with fewer than 3 rows fails with the
descriptive boundary error (`n_samples=… should be >= n_clusters=3`)
rather than proceeding; with at least 3 rows it succeeds, assigning
every row exactly one cluster label, each drawn from {0, 1, 2}. -/
theorem clustering_boundary_and_labels (rows : List Row) :
    (rows.length < 3 →
      clusterLabels rows
        = Except.error ("n_samples=" ++ toString rows.length
            ++ " should be >= n_clusters=" ++ toString 3))
    ∧ (3 ≤ rows.length →
      ∃ ls : List ℕ, clusterLabels rows = Except.ok ls
        ∧ ls.length = rows.length ∧ ∀ l ∈ ls, l < 3) := by
  have hfp : (featurePoints rows).length = rows.length := List.length_map _ _
  constructor
  · intro hlt
    unfold clusterLabels kmeansFit
    rw [if_pos (by rw [hfp]; exact hlt), hfp]
  · intro hge
    obtain ⟨ls, hok, hlen, hmem⟩ :=
      kmeansFit_ok 3 (standardWeights (featurePoints rows)) (featurePoints rows)
        (by decide) (by rw [hfp]; exact hge)
    exact ⟨ls, hok, by rw [hlen, hfp], hmem⟩

/-- Witness for C5: a two-row Dataset fails with the boundary error; a
three-row Dataset is clustered with one label in {0,1,2} per row. -/
theorem clustering_boundary_and_labels_witness :
    clusterLabels demoHalfRows
        = Except.error ("n_samples=" ++ toString demoHalfRows.length
            ++ " should be >= n_clusters=" ++ toString 3)
    ∧ (∃ ls : List ℕ, clusterLabels exampleRows = Except.ok ls
        ∧ ls.length = exampleRows.length ∧ ∀ l ∈ ls, l < 3) :=
  ⟨(clustering_boundary_and_labels demoHalfRows).1 (by decide),
   (clustering_boundary_and_labels exampleRows).2 (by decide)⟩

/-- The three fixed window identifiers (app.py lines 123-129). -/
def windowIds : List String := ["short_term", "medium_term", "long_term"]

/-- The load-data section (app.py lines 184-189): `fetch_tracks` is
called once for each of the three fixed windows and once more for the
sidebar-selected window. The second component records the window
argument of each `fetch_tracks` invocation, in program order. -/
def load_all (countries : List String)
    (detect fetchBio : String → Except String String)
    (artistGenres : String → Except String (List String))
    (api : String → Except String (List RawTrack))
    (selected : String) :
    (List Row × List Row × List Row × List Row) × List String :=
  (((fetch_tracks countries detect fetchBio artistGenres api "short_term").1,
    (fetch_tracks countries detect fetchBio artistGenres api "medium_term").1,
    (fetch_tracks countries detect fetchBio artistGenres api "long_term").1,
    (fetch_tracks countries detect fetchBio artistGenres api selected).1),
   ["short_term", "medium_term", "long_term", selected])

/-- Lines 191-193: `if df.empty: st.warning(...); st.stop()` — the
session proceeds past the load section only when the selected
window's Dataset is non-empty. -/
def proceedsAfterLoad (dfSel : List Row) : Bool := !dfSel.isEmpty

/-- C8: on each dashboard load the Track Fetcher is invoked exactly once
per fixed window plus exactly once more for the selected window (so
the selected identifier occurs twice in the invocation trace and the
other two once each, four invocations in all), and an empty selected
Dataset halts all further processing (`st.stop`). -/
theorem aggregator_invocations_and_halt (countries : List String)
    (detect fetchBio : String → Except String String)
    (artistGenres : String → Except String (List String))
    (api : String → Except String (List RawTrack))
    (selected : String) (hsel : selected ∈ windowIds) :
    (∀ w ∈ windowIds,
      ((load_all countries detect fetchBio artistGenres api selected).2).count w
        = if w = selected then 2 else 1)
    ∧ ((load_all countries detect fetchBio artistGenres api selected).2).length = 4
    ∧ (((load_all countries detect fetchBio artistGenres api selected).1.2.2.2).isEmpty
        = true →
      proceedsAfterLoad
        ((load_all countries detect fetchBio artistGenres api selected).1.2.2.2) = false) := by
  have hsel3 : selected = "short_term" ∨ selected = "medium_term"
      ∨ selected = "long_term" := by simpa [windowIds] using hsel
  refine ⟨?_, ?_, ?_⟩
  · rcases hsel3 with h | h | h <;> subst h <;>
      · show ∀ w ∈ windowIds, List.count w _ = _
        simp only [load_all]
        decide
  · rfl
  · intro h
    simp [proceedsAfterLoad, h]

/-- Witness for C8 with the selected window `"short_term"` (the
duplicated-fetch case) and an always-failing API, so the selected
Dataset is empty and the session halts. -/
theorem aggregator_invocations_and_halt_witness :
    (∀ w ∈ windowIds,
      ((load_all [] wDetect wBio wGenres (fun _ => Except.error "down") "short_term").2).count w
        = if w = "short_term" then 2 else 1)
    ∧ ((load_all [] wDetect wBio wGenres (fun _ => Except.error "down") "short_term").2).length = 4
    ∧ (((load_all [] wDetect wBio wGenres (fun _ => Except.error "down") "short_term").1.2.2.2).isEmpty
        = true →
      proceedsAfterLoad
        ((load_all [] wDetect wBio wGenres (fun _ => Except.error "down") "short_term").1.2.2.2)
          = false) :=
  aggregator_invocations_and_halt [] wDetect wBio wGenres
    (fun _ => Except.error "down") "short_term" (by decide)

end MusicProfile
